import Mathlib

/-!
Verification development for the `tpen-line-history` web component
(`src/tpen-line-history.js`).  The component's pure core — field
extraction (`getLineText`, `getLineBounding`, `getTimestamp`), bounding
comparison (`boundingChanged`), the timestamp sort inside
`fetchLineHistory`, and the per-item computations of `render` — is
embedded shallowly over a model of JavaScript values.  The stateful
`fetchLineHistory` / `handleLineChange` flow is embedded as explicit
state passing, with the outcome of each external history fetch supplied
as a parameter so that theorems quantify over every possible outcome.

Modelling conventions:
* JavaScript values are the inductive `JVal`; numbers are modelled as
  integers (the component only manipulates epoch-millisecond timestamps
  and pixel coordinates; `NaN`/`Infinity` are not modelled).
* Absent object properties read as `undefined` (`JVal.vundefined`), which is
  also what property access on a non-object produces (every such access
  in the source is either guarded by `?.` or harmless primitive boxing).
* `new Date(string)` is the host's date parser and is supplied as an
  explicit `dateParse : String → Option Int` argument (`none` models an
  invalid date, i.e. `isNaN(date.getTime())`).
* A JavaScript exception (the `TypeError` from calling `.match` on a
  non-string, the `ReferenceError` from an out-of-scope identifier) is
  modelled with `Except`.
-/

/-- Model of a JavaScript value as seen by this component. -/
inductive JVal where
  | vundefined
  | vnull
  | vbool (b : Bool)
  | vnum (n : Int)
  | vstr (s : String)
  | vobj (fields : List (String × JVal))
  | varr (elems : List JVal)

namespace JVal

/-- Property read `v[k]`: first binding in an object, `undefined`
otherwise.  Matches the source's uses, where every property access on a
possibly-nullish base is `?.`-guarded or yields `undefined` by boxing. -/
def get (v : JVal) (k : String) : JVal :=
  match v with
  | .vobj fields =>
    match fields.find? (fun p => p.1 == k) with
    | some p => p.2
    | none => .vundefined
  | _ => .vundefined

/-- JavaScript truthiness (`if (v)`, `filter(Boolean)`). -/
def truthy : JVal → Bool
  | .vundefined => false
  | .vnull => false
  | .vbool b => b
  | .vnum n => n != 0
  | .vstr s => s != ""
  | .vobj _ => true
  | .varr _ => true

/-- A value is nullish (`null` or `undefined`), as tested by `??`. -/
def nullish : JVal → Bool
  | .vundefined => true
  | .vnull => true
  | _ => false

/-- `typeof v === 'object'` (true for objects, arrays and `null`). -/
def typeofIsObject : JVal → Bool
  | .vobj _ => true
  | .varr _ => true
  | .vnull => true
  | _ => false

/-- `typeof v === 'string'`. -/
def typeofIsString : JVal → Bool
  | .vstr _ => true
  | _ => false

/-- The value is `undefined` (for `!== undefined` tests). -/
def isUndefined : JVal → Bool
  | .vundefined => true
  | _ => false

end JVal

/-- Nullish coalescing `a ?? b`. -/
def jsOrElse (a b : JVal) : JVal := if a.nullish then b else a

/-- Logical or `a || b` (first operand when truthy, else the second). -/
def jsOr (a b : JVal) : JVal := if a.truthy then a else b

/-- Strict equality `a === b` on the values the component compares.
Primitives compare structurally; for two object/array values the
JavaScript comparison is reference identity, which a value model cannot
observe — the component only ever compares rectangle coordinates
originating from distinct records, so distinct object values are
modelled as never identical. -/
def strictEq : JVal → JVal → Bool
  | .vundefined, .vundefined => true
  | .vnull, .vnull => true
  | .vbool a, .vbool b => a == b
  | .vnum a, .vnum b => a == b
  | .vstr a, .vstr b => a == b
  | _, _ => false

/-- Strict inequality `a !== b`. -/
def strictNe (a b : JVal) : Bool := !(strictEq a b)

/-! ### The `xywh` selector pattern

`getLineBounding` matches `selector.value` against the regular
expression `xywh=(?:pixel:)?(\d+),(\d+),(\d+),(\d+)` with `String.match`
(unanchored: the leftmost occurrence wins).  The pattern is embedded as
a deterministic scanner: `\d+` is a maximal digit run (the character
after it must be a literal `,`, which is not a digit, so greedy matching
never needs to backtrack), and the optional `pixel:` group must be
consumed exactly when present (a digit can never start with `p`). -/

/-- ASCII digit test (`\d`). -/
def isDigitCh (c : Char) : Bool := '0' ≤ c && c ≤ '9'

/-- Consume a run of digits, accumulating their decimal value. -/
def digitsAux : List Char → Nat → Nat × List Char
  | c :: rest, acc =>
    if isDigitCh c then digitsAux rest (acc * 10 + (c.toNat - 48)) else (acc, c :: rest)
  | [], acc => (acc, [])

/-- Match `\d+` : at least one digit, maximal run, decimal value. -/
def takeDigits : List Char → Option (Nat × List Char)
  | c :: rest => if isDigitCh c then some (digitsAux (c :: rest) 0) else none
  | [] => none

/-- Match one literal character. -/
def expectChar (c : Char) : List Char → Option (List Char)
  | x :: rest => if x == c then some rest else none
  | [] => none

/-- Match `(\d+),(\d+),(\d+),(\d+)` and return the four capture values. -/
def parseQuad (cs : List Char) : Option (Nat × Nat × Nat × Nat) := do
  let (a, cs) ← takeDigits cs
  let cs ← expectChar ',' cs
  let (b, cs) ← takeDigits cs
  let cs ← expectChar ',' cs
  let (c, cs) ← takeDigits cs
  let cs ← expectChar ',' cs
  let (d, _) ← takeDigits cs
  pure (a, b, c, d)

/-- Match the whole pattern at the current position: literal `xywh=`,
optional `pixel:`, then the four captures. -/
def matchXywhAt (cs : List Char) : Option (Nat × Nat × Nat × Nat) :=
  match cs with
  | 'x' :: 'y' :: 'w' :: 'h' :: '=' :: rest =>
    let rest :=
      match rest with
      | 'p' :: 'i' :: 'x' :: 'e' :: 'l' :: ':' :: r => r
      | _ => rest
    parseQuad rest
  | _ => none

/-- Leftmost match of the pattern anywhere in the character list. -/
def searchXywh : List Char → Option (Nat × Nat × Nat × Nat)
  | [] => none
  | c :: rest =>
    match matchXywhAt (c :: rest) with
    | some q => some q
    | none => searchXywh rest

/-- `s.match(/xywh=(?:pixel:)?(\d+),(\d+),(\d+),(\d+)/)`, reduced to the
four captured integers (`parseInt` on a digit run). -/
def xywhSearch (s : String) : Option (Nat × Nat × Nat × Nat) :=
  searchXywh s.data

/-! ### Field extraction (source lines 162–248) -/

/-- A bounding rectangle as built by `getLineBounding`.  The fields hold
raw JavaScript values: the selector path stores parsed integers, but the
flat-field path copies whatever the record holds. -/
structure Rect where
  x : JVal
  y : JVal
  width : JVal
  height : JVal

/-- The fall-through of `getLineText` (source line 205):
`line.text ?? line.content ?? line['cnt:chars'] ?? line.value ?? ''`. -/
def textFallback (line : JVal) : JVal :=
  jsOrElse (line.get "text")
    (jsOrElse (line.get "content")
      (jsOrElse (line.get "cnt:chars")
        (jsOrElse (line.get "value") (.vstr ""))))

/-- The body-array scan of `getLineText` (source lines 191–197): the
first entry whose `value` is truthy wins. -/
def firstBodyValue : List JVal → Option JVal
  | [] => none
  | item :: rest =>
    let v := item.get "value"
    if v.truthy then some v else firstBodyValue rest

/-- `getLineText` (source lines 183–206).  The annotation `body` is
tried first: an object (in the `typeof` sense) with a truthy `value`,
then an array scanned for the first truthy `value`, then a string body;
otherwise the property fall-through chain applies. -/
def getLineText (line : JVal) : JVal :=
  let body := line.get "body"
  if body.truthy then
    if body.typeofIsObject && (body.get "value").truthy then body.get "value"
    else
      match body with
      | .varr items =>
        match firstBodyValue items with
        | some v => v
        | none => textFallback line
      | .vstr _ => body
      | _ => textFallback line
  else textFallback line

/-- The `target ?? on` selector value `target?.selector?.value`
inspected by `getLineBounding` (source lines 215–220). -/
def selValOf (line : JVal) : JVal :=
  ((jsOrElse (line.get "target") (line.get "on")).get "selector").get "value"

/-- The guard of the flat-field branch (source lines 236–238):
`line.x !== undefined && line.y !== undefined &&
(line.width !== undefined || line.w !== undefined) &&
(line.height !== undefined || line.h !== undefined)`. -/
def hasFlatBounding (line : JVal) : Bool :=
  !(line.get "x").isUndefined && !(line.get "y").isUndefined &&
    (!(line.get "width").isUndefined || !(line.get "w").isUndefined) &&
    (!(line.get "height").isUndefined || !(line.get "h").isUndefined)

/-- The flat-field branch of `getLineBounding` (source lines 236–247):
copies `x`, `y`, `width ?? w`, `height ?? h` unchecked. -/
def flatBounding (line : JVal) : Option Rect :=
  if hasFlatBounding line then
    some ⟨line.get "x", line.get "y",
      jsOrElse (line.get "width") (line.get "w"),
      jsOrElse (line.get "height") (line.get "h")⟩
  else none

/-- `getLineBounding` (source lines 213–248).  When
`target?.selector?.value` is truthy the source calls
`selector.value.match(...)`; on a non-string value that raises a
`TypeError` (`.match` is not a function), modelled as `.error ()`.
A matching string yields the four parsed integers; a non-matching one
falls through to the flat-field branch. -/
def getLineBounding (line : JVal) : Except Unit (Option Rect) :=
  let selVal := selValOf line
  if selVal.truthy then
    match selVal with
    | .vstr s =>
      match xywhSearch s with
      | some (a, b, c, d) =>
        .ok (some ⟨.vnum (Int.ofNat a), .vnum (Int.ofNat b),
          .vnum (Int.ofNat c), .vnum (Int.ofNat d)⟩)
      | none => .ok (flatBounding line)
    | _ => .error ()
  else .ok (flatBounding line)

/-- `getTimestamp` (source lines 162–176, the surviving second copy of
the duplicated method).  The `??` chain keeps only the first non-nullish
candidate; `filter(Boolean)` then drops falsy survivors; strings go
through the host date parser, numbers pass through, anything else maps
to `null` and is dropped; the result is the maximum, or `0`. -/
def getTimestamp (dateParse : String → Option Int) (line : JVal) : Int :=
  let createdAt :=
    jsOrElse ((line.get "__rerum").get "createdAt")
      (jsOrElse (line.get "createdAt")
        (jsOrElse (line.get "modified")
          (jsOrElse (line.get "created") (line.get "timestamp"))))
  let overwritten :=
    jsOrElse ((line.get "__rerum").get "isOverwritten") (line.get "isOverwritten")
  let timestamps :=
    ([createdAt, overwritten].filter JVal.truthy).filterMap (fun ts =>
      match ts with
      | .vstr s => dateParse s
      | .vnum n => some n
      | _ => none)
  match timestamps with
  | [] => 0
  | t :: rest => rest.foldl max t

/-- `boundingChanged` (source lines 413–418). -/
def boundingChanged : Option Rect → Option Rect → Bool
  | none, none => false
  | some _, none => true
  | none, some _ => true
  | some b1, some b2 =>
    strictNe b1.x b2.x || strictNe b1.y b2.y ||
      strictNe b1.width b2.width || strictNe b1.height b2.height

/-! ### The sort inside `fetchLineHistory` (source lines 121–127)

`this.historyData.sort((a, b) => getTimestamp(b) - getTimestamp(a))`.
`Array.prototype.sort` is stable (ECMAScript 2019 and later), so it is
embedded as the standard library's stable merge sort; the comparator
puts `a` before `b` exactly when `getTimestamp(a) ≥ getTimestamp(b)`. -/

/-- The timestamp sort of `fetchLineHistory`, newest first. -/
def sortHistory (dateParse : String → Option Int) (l : List JVal) : List JVal :=
  l.mergeSort (fun a b => decide (getTimestamp dateParse b ≤ getTimestamp dateParse a))

/-! ### Per-item computations of `render` (source lines 588–603) -/

/-- `prevBounding` for display index `i` (source lines 595–597): the
bounding of the next-older entry, or `null` for the last entry. -/
def prevBoundingAt (l : List JVal) (i : Nat) : Except Unit (Option Rect) :=
  if i < l.length - 1 then getLineBounding (l.getD (i + 1) (.vobj [])) else .ok none

/-- The `boundingChanged` flag computed by `render` for display index
`i` of the newest-first history list (source line 598). -/
def renderFlag (l : List JVal) (i : Nat) : Except Unit Bool := do
  let b ← getLineBounding (l.getD i (.vobj []))
  let p ← prevBoundingAt l i
  pure (boundingChanged b p)

/-- `versionId` for one item (source line 601):
`item['@id'] ?? item.id ?? item._id ?? 'version-' + index`. -/
def versionId (item : JVal) (index : Nat) : JVal :=
  jsOrElse (item.get "@id")
    (jsOrElse (item.get "id")
      (jsOrElse (item.get "_id") (.vstr ("version-" ++ toString index))))

/-- The display identifier `render` resolves for display index `i` of
the newest-first history list (index 0 is the newest entry). -/
def renderVersionId (l : List JVal) (i : Nat) : JVal :=
  versionId (l.getD i (.vobj [])) i

/-! ### The stateful fetch flow (source lines 57–134)

`fetchLineHistory` is embedded as explicit state passing over the
component's fields.  The outcome of each `RerumHistoryData` fetch
(together with the subsequent `getItems()` / `getGraph()` reads) is an
external event, supplied as a `FetchOutcome` parameter: `.ok items
graph` for a resolved fetch, `.err` for a rejected one (network error,
or the abort triggered by a newer selection). -/

/-- The component fields this model tracks: `this.currentLine`,
`this.historyData`, `this.historyGraph`, and the history list most
recently written to the DOM by `render`. -/
structure CompState where
  currentLine : Option JVal
  historyData : List JVal
  historyGraph : Option JVal
  renderedHistory : List JVal

/-- Outcome of one external history fetch. -/
inductive FetchOutcome where
  | ok (items : List JVal) (graph : JVal)
  | err

/-- The try/catch body shared by both fetch blocks (source lines 84–100
and 115–133): on success store the fetched items (sorted newest-first
when non-empty) and the graph; on failure fall back to the one-element
history holding the current line record and a null graph. -/
def fetchSettle (dateParse : String → Option Int) (lineData : JVal)
    (r : FetchOutcome) (s : CompState) : CompState :=
  match r with
  | .ok items graph =>
    { s with
      historyData := if items.length > 0 then sortHistory dateParse items else items
      historyGraph := some graph }
  | .err => { s with historyData := [lineData], historyGraph := none }

/-- The first half of `fetchLineHistory` (source lines 75–105): fetch
when the record has a `uri` or `@id`, otherwise show the current state
only. -/
def firstFetchBlock (dateParse : String → Option Int) (lineData : JVal)
    (r : FetchOutcome) (s : CompState) : CompState :=
  if (lineData.get "uri").truthy || (lineData.get "@id").truthy then
    fetchSettle dateParse lineData r s
  else { s with historyData := [lineData], historyGraph := none }

/-- Scope fact for the duplicated second fetch block: at source line 114
the identifier `uri` is referenced, but the only `uri` binding is the
`const` at line 76, scoped to the `if` block of the first half that
ended at line 105.  Under JavaScript block scoping the reference fails
(it is not in any enclosing scope), so evaluating
`new RerumHistoryData(uri)` throws a `ReferenceError` before any fetch
starts.  `none` records that no `uri` binding is visible there. -/
def uriInScopeAtSecondBlock : Option JVal := none

/-- The duplicated second half of `fetchLineHistory` (source lines
107–133).  Its `try` body reads the out-of-scope `uri`, so it always
throws and the `catch` installs the one-element fallback; the mirrored
fetch code is retained under the `some` arm for fidelity but is
unreachable. -/
def secondFetchBlock (dateParse : String → Option Int) (lineData : JVal)
    (r : FetchOutcome) (s : CompState) : CompState :=
  match uriInScopeAtSecondBlock with
  | none => { s with historyData := [lineData], historyGraph := none }
  | some _ => fetchSettle dateParse lineData r s

/-- `fetchLineHistory` (source lines 73–134): the first block followed
by the duplicated second block. -/
def fetchLineHistory (dateParse : String → Option Int) (lineData : JVal)
    (r1 r2 : FetchOutcome) (s : CompState) : CompState :=
  secondFetchBlock dateParse lineData r2 (firstFetchBlock dateParse lineData r1 s)

/-- One `render()` call (source lines 423–687), restricted to the state
this model tracks: the DOM now reflects the current `historyData`. -/
def renderStep (s : CompState) : CompState :=
  { s with renderedHistory := s.historyData }

/-- `handleLineChange` (source lines 57–65) run to completion with no
interleaved event: guard, set `currentLine`, await `fetchLineHistory`,
then `render`. -/
def handleLineChange (dateParse : String → Option Int) (lineData : JVal)
    (r1 r2 : FetchOutcome) (s : CompState) : CompState :=
  if !lineData.truthy then s
  else renderStep (fetchLineHistory dateParse lineData r1 r2
    { s with currentLine := some lineData })

/-- Scenario 5 interleaving (spec §8): a selection event for `lineB`
arrives while `lineA`'s fetch is in flight, and `lineA`'s fetch settles
last.  Steps, in the single-threaded event-loop order:
1. `handleLineChange(lineA)` runs up to the suspension at
   `await this.rerumHistoryData.fetch()` inside the first block
   (`lineA` must carry a `uri` for that path to be taken); by then it
   has set `currentLine` to `lineA`.
2. `handleLineChange(lineB)` runs to completion (its fetch settles
   first), rendering `lineB`'s view.
3. `lineA`'s fetch settles with outcome `rA1`; the rest of its
   `fetchLineHistory` (the tail of the first block, then the whole
   second block) and its `render()` call run. -/
def scenario5 (dateParse : String → Option Int) (lineA lineB : JVal)
    (rA1 rA2 rB1 rB2 : FetchOutcome) (s0 : CompState) : CompState :=
  let s1 := { s0 with currentLine := some lineA }
  let s2 := handleLineChange dateParse lineB rB1 rB2 s1
  renderStep (secondFetchBlock dateParse lineA rA2
    (fetchSettle dateParse lineA rA1 s2))

/-! ### Concrete records and auxiliary predicates used by the theorems -/

/-- A bounding value is a non-negative number (spec §3: rectangle fields
are "all non-negative numbers"). -/
def nonNegNum : JVal → Bool
  | .vnum n => decide (0 ≤ n)
  | _ => false

/-- The extraction raised a JavaScript exception. -/
def isError : Except Unit (Option Rect) → Bool
  | .error _ => true
  | .ok _ => false

/-- Newest record of spec §8 Scenario 3:
`{x:1, y:1, width:1, height:1, created: 2000}`. -/
def scenario3Newest : JVal :=
  .vobj [("x", .vnum 1), ("y", .vnum 1), ("width", .vnum 1),
    ("height", .vnum 1), ("created", .vnum 2000)]

/-- Oldest record of spec §8 Scenario 3:
`{x:1, y:1, width:1, height:1, created: 1000}`. -/
def scenario3Oldest : JVal :=
  .vobj [("x", .vnum 1), ("y", .vnum 1), ("width", .vnum 1),
    ("height", .vnum 1), ("created", .vnum 1000)]

/-- Line record A for the Scenario 5 interleaving. -/
def lineSelA : JVal := .vobj [("uri", .vstr "urn:line-a")]

/-- Line record B for the Scenario 5 interleaving. -/
def lineSelB : JVal := .vobj [("uri", .vstr "urn:line-b")]

/-! ## Claims -/

/-- C1: for every line record passed to `fetchLineHistory` and every
outcome of the external history fetches (success or failure), the call
completes with `historyData` equal to the one-element array holding
exactly the input record and `historyGraph` null: the duplicated second
fetch block references the out-of-scope `uri` binding, always throws,
and its catch handler unconditionally overwrites any previously fetched
history with the single-element fallback. -/
theorem c1_fetchLineHistory_always_falls_back
    (dateParse : String → Option Int) (lineData : JVal)
    (r1 r2 : FetchOutcome) (s : CompState) :
    (fetchLineHistory dateParse lineData r1 r2 s).historyData = [lineData] ∧
    (fetchLineHistory dateParse lineData r1 r2 s).historyGraph = none :=
  ⟨rfl, rfl⟩

/-- C5: the code has no "is this still the current line" guard, so in
the Scenario 5 interleaving (line B selected while line A's fetch is in
flight, A's fetch settling last) the component's final render shows
line A's one-element fallback history even though `currentLine` is B:
the stale result is not discarded, contradicting the required
last-selection-wins behaviour. -/
theorem c5_stale_fetch_overwrites_newer_selection
    (dateParse : String → Option Int) (rA1 rA2 rB1 rB2 : FetchOutcome)
    (s0 : CompState) :
    (scenario5 dateParse lineSelA lineSelB rA1 rA2 rB1 rB2 s0).renderedHistory
        = [lineSelA] ∧
    (scenario5 dateParse lineSelA lineSelB rA1 rA2 rB1 rB2 s0).currentLine
        = some lineSelB := by
  refine ⟨rfl, ?_⟩
  cases rA1 <;> cases rB1 <;> rfl

/-- C2 counterexample: on the Scenario 3 input (two versions with
identical non-null flat bounding boxes, newest first) the last (oldest)
entry IS flagged: `render` compares it against a null `prevBounding`,
and `boundingChanged(box, null)` is true.  The newest entry is unflagged
as the claim says. -/
theorem c2_counterexample :
    renderFlag [scenario3Newest, scenario3Oldest] 1 = .ok true ∧
    renderFlag [scenario3Newest, scenario3Oldest] 0 = .ok false :=
  ⟨rfl, rfl⟩

/-- C2 (amended): the last (oldest) entry of a non-empty history is
compared against a null predecessor, so its `boundingChanged` flag is
true exactly when its own bounding is non-null; in Scenario 3 the
newest entry has `boundingChanged == false` but the oldest has
`boundingChanged == true`. -/
theorem c2_last_entry_flag_is_bounding_presence
    (l : List JVal) (ob : Option Rect) (hlen : 0 < l.length)
    (hb : getLineBounding (l.getD (l.length - 1) (.vobj [])) = .ok ob) :
    renderFlag l (l.length - 1) = .ok ob.isSome := by
  have hcond : ¬(l.length - 1 < l.length - 1) := Nat.lt_irrefl _
  unfold renderFlag prevBoundingAt
  rw [hb, if_neg hcond]
  cases ob <;> rfl

/-- C2 witness: a one-element history whose record has no bounding
fields; its only (hence last) entry gets flag `false`. -/
theorem c2_last_entry_flag_witness :
    0 < ([JVal.vobj []] : List JVal).length ∧
    renderFlag [JVal.vobj []] 0 = .ok false :=
  ⟨by decide, c2_last_entry_flag_is_bounding_presence [JVal.vobj []] none
    (by decide) rfl⟩

/-- C3 counterexample: a record carrying both a string `text` field and
a string `body` yields the body, not the text: `getLineText` tries the
annotation body before the `text` field. -/
theorem c3_counterexample :
    getLineText (.vobj [("text", .vstr "a"), ("body", .vstr "b")]) = .vstr "b" ∧
    JVal.vstr "b" ≠ JVal.vstr "a" :=
  ⟨rfl, by simp⟩

/-- C3 (amended): `getLineText` tries the annotation `body` first
(object with a truthy `value` field, then array whose first entry with a
truthy `value` wins, then string body), and only then the chain
`text`, `content`, `cnt:chars`, `value`, empty string; in particular a
string `body` wins over a string `text` field. -/
theorem c3_text_priority_order (s t : String) (ht : t ≠ "") :
    getLineText (.vobj [("text", .vstr s), ("body", .vstr t)]) = .vstr t ∧
    getLineText (.vobj [("body", .vobj [("value", .vstr t)]), ("text", .vstr s)])
      = .vstr t ∧
    getLineText (.vobj [("body", .varr [.vobj [("value", .vstr t)]]),
      ("text", .vstr s)]) = .vstr t ∧
    getLineText (.vobj [("text", .vstr s), ("content", .vstr t)]) = .vstr s ∧
    getLineText (.vobj [("content", .vstr t), ("cnt:chars", .vstr s)]) = .vstr t ∧
    getLineText (.vobj [("cnt:chars", .vstr t), ("value", .vstr s)]) = .vstr t ∧
    getLineText (.vobj [("value", .vstr t)]) = .vstr t ∧
    getLineText (.vobj []) = .vstr "" := by
  refine ⟨?_, ?_, ?_, ?_, ?_, ?_, ?_, rfl⟩ <;>
    simp [getLineText, textFallback, firstBodyValue, jsOrElse,
      JVal.get, JVal.truthy, JVal.nullish, JVal.typeofIsObject, ht]

/-- C3 witness: the priority order evaluated at `text = "a"`,
`body = "b"` (and the other candidate pairs built from them). -/
theorem c3_text_priority_order_witness :
    ("b" : String) ≠ "" ∧
    getLineText (.vobj [("text", .vstr "a"), ("body", .vstr "b")]) = .vstr "b" ∧
    getLineText (.vobj [("text", .vstr "a"), ("content", .vstr "b")]) = .vstr "a" :=
  ⟨by decide, (c3_text_priority_order "a" "b" (by decide)).1,
    (c3_text_priority_order "a" "b" (by decide)).2.2.2.1⟩

/-- C4 counterexample: with `createdAt: 1000` and a later parseable
`modified: 2000` both present, `getTimestamp` returns 1000, not the
claimed later `modified` instant: the `??` chain keeps only the first
present candidate, so `modified` is never consulted. -/
theorem c4_counterexample :
    getTimestamp (fun _ => none)
      (.vobj [("createdAt", .vnum 1000), ("modified", .vnum 2000)]) = 1000 ∧
    (1000 : Int) ≠ 2000 :=
  ⟨rfl, by decide⟩

/-- C4 (amended): `getTimestamp` keeps only the first non-nullish
candidate of the chain `__rerum.createdAt ?? createdAt ?? modified ??
created ?? timestamp`, plus the `isOverwritten` mark; truthy parseable
survivors are collected and their maximum returned (0 when none).  In
particular, when `createdAt` and `isOverwritten` are truthy numbers the
result is their maximum, and `modified` is ignored entirely. -/
theorem c4_first_present_candidate_wins
    (dateParse : String → Option Int) (n m o : Int)
    (hn : n ≠ 0) (ho : o ≠ 0) :
    getTimestamp dateParse
      (.vobj [("createdAt", .vnum n), ("modified", .vnum m),
        ("isOverwritten", .vnum o)]) = max n o := by
  have hn2 : (n != 0) = true := by simp [bne, hn]
  have ho2 : (o != 0) = true := by simp [bne, ho]
  simp [getTimestamp, jsOrElse, JVal.get, JVal.truthy, JVal.nullish,
    List.filter, List.filterMap, List.foldl, hn2, ho2]

/-- C4 witness: `createdAt: 1000`, `modified: 1500`,
`isOverwritten: 3000` resolves to 3000 (`modified` ignored). -/
theorem c4_first_present_candidate_wins_witness :
    (1000 : Int) ≠ 0 ∧ (3000 : Int) ≠ 0 ∧
    getTimestamp (fun _ => none)
      (.vobj [("createdAt", .vnum 1000), ("modified", .vnum 1500),
        ("isOverwritten", .vnum 3000)]) = max 1000 3000 :=
  ⟨by decide, by decide,
    c4_first_present_candidate_wins (fun _ => none) 1000 1500 3000
      (by decide) (by decide)⟩

/-- C6 counterexample: on the record
`{target: {selector: {value: 5}}}` — an object with a malformed field —
`getLineBounding` throws: the truthy non-string selector value reaches
`selector.value.match(...)`, a `TypeError`.  So extraction is not
exception-free on all record objects. -/
theorem c6_counterexample :
    getLineBounding
      (.vobj [("target", .vobj [("selector", .vobj [("value", .vnum 5)])])])
      = .error () :=
  rfl

/-- C6 (amended): `getLineText` and `getTimestamp` are total on record
objects (they are functions in this model), and all three extractors are
deterministic; but `getLineBounding` raises exactly when the record's
`target`/`on` selector value is truthy and not a string — on every other
record object it returns a rectangle or null without throwing. -/
theorem c6_bounding_throws_iff_truthy_nonstring_selector (line : JVal) :
    isError (getLineBounding line)
      = ((selValOf line).truthy && !(selValOf line).typeofIsString) := by
  cases h : selValOf line with
  | vstr s =>
    by_cases he : s = ""
    · subst he
      simp [getLineBounding, isError, h, JVal.truthy, JVal.typeofIsString]
    · have htr : (JVal.vstr s).truthy = true := by simp [JVal.truthy, bne, he]
      cases hm : xywhSearch s with
      | some q =>
        obtain ⟨a, b, c, d⟩ := q
        simp [getLineBounding, isError, h, htr, hm, JVal.typeofIsString]
      | none =>
        simp [getLineBounding, isError, h, htr, hm, JVal.typeofIsString]
  | vundefined =>
    simp [getLineBounding, isError, h, JVal.truthy, JVal.typeofIsString]
  | vnull =>
    simp [getLineBounding, isError, h, JVal.truthy, JVal.typeofIsString]
  | vbool b =>
    cases b <;>
      simp [getLineBounding, isError, h, JVal.truthy, JVal.typeofIsString]
  | vnum n =>
    by_cases hz : n = 0
    · subst hz
      simp [getLineBounding, isError, h, JVal.truthy, JVal.typeofIsString]
    · have : ((JVal.vnum n).truthy) = true := by simp [JVal.truthy, bne, hz]
      simp [getLineBounding, isError, h, this, JVal.typeofIsString]
  | vobj fs =>
    simp [getLineBounding, isError, h, JVal.truthy, JVal.typeofIsString]
  | varr xs =>
    simp [getLineBounding, isError, h, JVal.truthy, JVal.typeofIsString]

/-- C7: the timestamp sort of `fetchLineHistory` drops no record,
orders the history by resolved timestamp descending, and is stable:
for every timestamp value, the records resolving to it appear in the
output in their relative input order (`Array.prototype.sort` is stable
per ECMAScript, embedded as a stable merge sort). -/
theorem c7_sequencer_descending_stable_same_length
    (dateParse : String → Option Int) (l : List JVal) :
    (sortHistory dateParse l).length = l.length ∧
    (sortHistory dateParse l).Pairwise
      (fun a b => getTimestamp dateParse b ≤ getTimestamp dateParse a) ∧
    ∀ t : Int,
      (sortHistory dateParse l).filter
          (fun x => getTimestamp dateParse x == t)
        = l.filter (fun x => getTimestamp dateParse x == t) := by
  have trans : ∀ a b c : JVal,
      decide (getTimestamp dateParse b ≤ getTimestamp dateParse a) →
      decide (getTimestamp dateParse c ≤ getTimestamp dateParse b) →
      decide (getTimestamp dateParse c ≤ getTimestamp dateParse a) := by
    intro a b c hab hbc
    simp only [decide_eq_true_eq] at *
    exact le_trans hbc hab
  have total : ∀ a b : JVal,
      decide (getTimestamp dateParse b ≤ getTimestamp dateParse a)
        || decide (getTimestamp dateParse a ≤ getTimestamp dateParse b) := by
    intro a b
    rcases le_total (getTimestamp dateParse b) (getTimestamp dateParse a)
      with h | h <;> simp [h]
  refine ⟨by simp [sortHistory], ?_, ?_⟩
  · have hs := List.sorted_mergeSort trans total l
    exact hs.imp (fun h => by simpa using h)
  · intro t
    have hall : ∀ x ∈ l.filter (fun x => getTimestamp dateParse x == t),
        getTimestamp dateParse x = t := by
      intro x hx
      simpa using (List.mem_filter.mp hx).2
    have hpw : (l.filter (fun x => getTimestamp dateParse x == t)).Pairwise
        (fun a b =>
          decide (getTimestamp dateParse b ≤ getTimestamp dateParse a)
            = true) := by
      apply List.pairwise_of_forall_mem_list
      intro a ha b hb
      simp [hall a ha, hall b hb]
    have hsub2 : List.Sublist (l.filter (fun x => getTimestamp dateParse x == t))
        (sortHistory dateParse l) :=
      List.sublist_mergeSort trans total hpw (List.filter_sublist l)
    have hfsub : List.Sublist (l.filter (fun x => getTimestamp dateParse x == t))
        ((sortHistory dateParse l).filter
          (fun x => getTimestamp dateParse x == t)) := by
      have h2 := hsub2.filter (fun x => getTimestamp dateParse x == t)
      simpa using h2
    have hperm : List.Perm (sortHistory dateParse l) l := List.mergeSort_perm l _
    have hlen : ((sortHistory dateParse l).filter
          (fun x => getTimestamp dateParse x == t)).length
        = (l.filter (fun x => getTimestamp dateParse x == t)).length :=
      (hperm.filter _).length_eq
    exact (hfsub.eq_of_length hlen.symm).symm

/-- Helper: a non-empty string is truthy. -/
theorem truthy_vstr_of_ne (s : String) (h : s ≠ "") :
    (JVal.vstr s).truthy = true := by
  simp [JVal.truthy, bne, h]

/-- Helper: when the selector value is a string containing an `xywh`
match, `getLineBounding` returns the four parsed integers. -/
theorem getLineBounding_selector_match (line : JVal) (s : String)
    (a b c d : Nat) (hsel : selValOf line = .vstr s)
    (hm : xywhSearch s = some (a, b, c, d)) :
    getLineBounding line = .ok (some ⟨.vnum (Int.ofNat a),
      .vnum (Int.ofNat b), .vnum (Int.ofNat c), .vnum (Int.ofNat d)⟩) := by
  have hne : s ≠ "" := by
    intro h
    rw [h, show xywhSearch "" = none from rfl] at hm
    cases hm
  simp [getLineBounding, hsel, truthy_vstr_of_ne s hne, hm]

/-- Helper: when the selector value is a string with no `xywh` match,
`getLineBounding` falls through to the flat-field branch. -/
theorem getLineBounding_selector_nomatch (line : JVal) (s : String)
    (hsel : selValOf line = .vstr s) (hn : xywhSearch s = none) :
    getLineBounding line = .ok (flatBounding line) := by
  by_cases he : s = ""
  · subst he
    simp [getLineBounding, hsel, JVal.truthy]
  · simp [getLineBounding, hsel, truthy_vstr_of_ne s he, hn]

/-- C8 counterexample: a record whose selector value is a non-matching
string but which carries flat `x`/`y`/`width`/`height` fields gets a
full rectangle from the flat branch, not the null the claim asserts. -/
theorem c8_counterexample :
    getLineBounding (.vobj [("target",
        .vobj [("selector", .vobj [("value", .vstr "bogus")])]),
      ("x", .vnum 1), ("y", .vnum 2), ("width", .vnum 3), ("height", .vnum 4)])
      = .ok (some ⟨.vnum 1, .vnum 2, .vnum 3, .vnum 4⟩) ∧
    (Except.ok (some (⟨.vnum 1, .vnum 2, .vnum 3, .vnum 4⟩ : Rect))
      ≠ (.ok none : Except Unit (Option Rect))) :=
  ⟨rfl, by simp⟩

/-- C8 (amended): a selector value matching the `xywh` pattern yields
the four parsed integers (Scenario 2); a non-matching string selector
value contributes no rectangle — the result falls through to the flat
`x`/`y`/`width`/`height` fields and is null exactly when those are also
absent (never a partial rectangle). -/
theorem c8_selector_pattern_behavior (line : JVal) (s : String)
    (hsel : selValOf line = .vstr s) :
    (∀ a b c d : Nat, xywhSearch s = some (a, b, c, d) →
      getLineBounding line = .ok (some ⟨.vnum (Int.ofNat a),
        .vnum (Int.ofNat b), .vnum (Int.ofNat c), .vnum (Int.ofNat d)⟩)) ∧
    (xywhSearch s = none → getLineBounding line = .ok (flatBounding line)) ∧
    (xywhSearch s = none → hasFlatBounding line = false →
      getLineBounding line = .ok none) := by
  refine ⟨fun a b c d hm =>
      getLineBounding_selector_match line s a b c d hsel hm,
    fun hn => getLineBounding_selector_nomatch line s hsel hn,
    fun hn hf => ?_⟩
  rw [getLineBounding_selector_nomatch line s hsel hn]
  simp [flatBounding, hf]

/-- C8 witness: Scenario 2, `{target:{selector:{value:
"xywh=pixel:5,6,7,8"}}}` extracts the rectangle 5, 6, 7, 8. -/
theorem c8_selector_pattern_behavior_witness :
    selValOf (.vobj [("target",
        .vobj [("selector", .vobj [("value", .vstr "xywh=pixel:5,6,7,8")])])])
      = .vstr "xywh=pixel:5,6,7,8" ∧
    getLineBounding (.vobj [("target",
        .vobj [("selector", .vobj [("value", .vstr "xywh=pixel:5,6,7,8")])])])
      = .ok (some ⟨.vnum 5, .vnum 6, .vnum 7, .vnum 8⟩) :=
  ⟨rfl, (c8_selector_pattern_behavior
    (.vobj [("target",
      .vobj [("selector", .vobj [("value", .vstr "xywh=pixel:5,6,7,8")])])])
    "xywh=pixel:5,6,7,8" rfl).1 5 6 7 8 rfl⟩

/-- C9 counterexample: the flat-field branch copies values unchecked, so
a record with `x: -1` yields a non-null rectangle whose `x` is not a
non-negative number. -/
theorem c9_counterexample :
    getLineBounding (.vobj [("x", .vnum (-1)), ("y", .vnum 0),
        ("width", .vnum 3), ("height", .vnum 4)])
      = .ok (some ⟨.vnum (-1), .vnum 0, .vnum 3, .vnum 4⟩) ∧
    nonNegNum (.vnum (-1)) = false :=
  ⟨rfl, rfl⟩

/-- C9 (amended): rectangles produced by the selector-pattern path do
have four non-negative integer fields; the flat-field path passes the
record's values through unchecked, so its rectangles need not. -/
theorem c9_selector_rect_fields_nonneg (line : JVal) (s : String)
    (a b c d : Nat) (hsel : selValOf line = .vstr s)
    (hm : xywhSearch s = some (a, b, c, d)) :
    getLineBounding line = .ok (some ⟨.vnum (Int.ofNat a),
      .vnum (Int.ofNat b), .vnum (Int.ofNat c), .vnum (Int.ofNat d)⟩) ∧
    nonNegNum (.vnum (Int.ofNat a)) = true ∧
    nonNegNum (.vnum (Int.ofNat b)) = true ∧
    nonNegNum (.vnum (Int.ofNat c)) = true ∧
    nonNegNum (.vnum (Int.ofNat d)) = true :=
  ⟨getLineBounding_selector_match line s a b c d hsel hm,
    decide_eq_true (Int.ofNat_nonneg a), decide_eq_true (Int.ofNat_nonneg b),
    decide_eq_true (Int.ofNat_nonneg c), decide_eq_true (Int.ofNat_nonneg d)⟩

/-- C9 witness: a record carrying the selector through `on` with value
`"xywh=1,2,3,4"` yields the rectangle 1, 2, 3, 4, all fields
non-negative numbers. -/
theorem c9_selector_rect_fields_nonneg_witness :
    selValOf (.vobj [("on",
        .vobj [("selector", .vobj [("value", .vstr "xywh=1,2,3,4")])])])
      = .vstr "xywh=1,2,3,4" ∧
    (getLineBounding (.vobj [("on",
        .vobj [("selector", .vobj [("value", .vstr "xywh=1,2,3,4")])])])
      = .ok (some ⟨.vnum 1, .vnum 2, .vnum 3, .vnum 4⟩) ∧
    nonNegNum (.vnum 1) = true ∧ nonNegNum (.vnum 2) = true ∧
    nonNegNum (.vnum 3) = true ∧ nonNegNum (.vnum 4) = true) :=
  ⟨rfl, c9_selector_rect_fields_nonneg _ "xywh=1,2,3,4" 1 2 3 4 rfl rfl⟩

/-- C10 counterexample: in a two-element history where both records lack
`@id`, `id` and `_id`, the NEWEST entry (display index 0) is labelled
`version-0`: the synthesized index counts from the newest entry of the
newest-first list, not from the oldest (which would give this entry
`version-1`, or `version-2` counting 1-based). -/
theorem c10_counterexample :
    renderVersionId [.vobj [], .vobj []] 0 = .vstr "version-0" ∧
    JVal.vstr "version-0" ≠ .vstr "version-1" ∧
    JVal.vstr "version-0" ≠ .vstr "version-2" :=
  ⟨rfl, by simp, by simp⟩

/-- C10 (amended): when a displayed version has none of `@id`, `id`,
`_id`, its identifier is the synthesized `version-<i>` where `i` is its
display position in the newest-first ordered history (0 = newest). -/
theorem c10_fallback_id_counts_from_newest (l : List JVal) (i : Nat)
    (h1 : ((l.getD i (.vobj [])).get "@id").nullish = true)
    (h2 : ((l.getD i (.vobj [])).get "id").nullish = true)
    (h3 : ((l.getD i (.vobj [])).get "_id").nullish = true) :
    renderVersionId l i = .vstr ("version-" ++ toString i) := by
  unfold renderVersionId versionId jsOrElse
  rw [if_pos h1, if_pos h2, if_pos h3]

/-- C10 witness: the older entry of a two-element id-less history gets
`version-1`. -/
theorem c10_fallback_id_counts_from_newest_witness :
    ((([.vobj [], .vobj []] : List JVal).getD 1 (.vobj [])).get "@id").nullish
      = true ∧
    renderVersionId [.vobj [], .vobj []] 1 = .vstr "version-1" :=
  ⟨rfl, c10_fallback_id_counts_from_newest [.vobj [], .vobj []] 1 rfl rfl rfl⟩
